import Mathlib

/-! Formal model of the CUDA neutron-guide transport kernel in
`acc/components/optics/guide.py`.  Python floats are modelled as real
numbers (so the IEEE division is modelled by the total real division,
noted where it matters), the flat neutron record is the `Neutron`
structure, and the scalar arguments of `propagate` form the `Params`
structure. -/

namespace GuideModel

/-- Scalar parameters passed to `propagate`: the taper half-rates
`ww = (w2 - w1)/2` and `hh = (h2 - h1)/2`, the entrance half-aperture
`hw1 = w1/2` and `hh1 = h1/2`, the guide length `l`, and the mirror
material parameters `R0, Qc, alpha, m, W`. -/
structure Params where
  ww : ℝ
  hh : ℝ
  hw1 : ℝ
  hh1 : ℝ
  l : ℝ
  R0 : ℝ
  Qc : ℝ
  alpha : ℝ
  m : ℝ
  W : ℝ

/-- The mutable per-neutron record: position, velocity, elapsed time and
statistical weight (`in_neutron[:6]`, `in_neutron[-2]`, `in_neutron[-1]`
in the source). -/
@[ext]
structure Neutron where
  x : ℝ
  y : ℝ
  z : ℝ
  vx : ℝ
  vy : ℝ
  vz : ℝ
  t : ℝ
  prob : ℝ

/-- Modelled from the spec: the velocity-to-wavevector conversion constant
`V2K` imported from the external collaborator `mcni.utils.conversion`
(about 1.58825e-3 inverse angstroms per metre-per-second); only its
concrete value lies outside this repository. -/
def V2K : ℝ := 1.58825361e-3

/-- Mirror reflectivity, `calc_reflectivity` in the source: start from
`R = R0` and, only when `Q > Qc`, scale by the supermirror cut-off factor
`(1 - tanh((Q - m*Qc)/W)) * (1 - alpha*(Q - Qc)) / 2`. -/
noncomputable def calc_reflectivity (Q R0 Qc alpha m W : ℝ) : ℝ :=
  if Q > Qc then
    R0 * ((1 - Real.tanh ((Q - m * Qc) / W)) * (1 - alpha * (Q - Qc)) / 2)
  else R0

/-- The bounce-loop iteration cap, `max_bounces = 100000` in the source. -/
def max_bounces : ℕ := 100000

/-- Directional term of the left vertical mirror: `bv + av` with
`av = l*vx` and `bv = ww*vz`. -/
def vdotn_v1 (p : Params) (s : Neutron) : ℝ := p.ww * s.vz + p.l * s.vx

/-- Directional term of the right vertical mirror: `bv - av`. -/
def vdotn_v2 (p : Params) (s : Neutron) : ℝ := p.ww * s.vz - p.l * s.vx

/-- Directional term of the lower horizontal mirror: `bh + ah` with
`ah = l*vy` and `bh = hh*vz`. -/
def vdotn_h1 (p : Params) (s : Neutron) : ℝ := p.hh * s.vz + p.l * s.vy

/-- Directional term of the upper horizontal mirror: `bh - ah`. -/
def vdotn_h2 (p : Params) (s : Neutron) : ℝ := p.hh * s.vz - p.l * s.vy

/-- Source quantity `cv1 = -hw1*l - z*ww`. -/
def cv1 (p : Params) (s : Neutron) : ℝ := -p.hw1 * p.l - s.z * p.ww

/-- Source quantity `cv2 = x*l`. -/
def cv2 (p : Params) (s : Neutron) : ℝ := s.x * p.l

/-- Source quantity `ch1 = -hh1*l - z*hh`. -/
def ch1 (p : Params) (s : Neutron) : ℝ := -p.hh1 * p.l - s.z * p.hh

/-- Source quantity `ch2 = y*l`. -/
def ch2 (p : Params) (s : Neutron) : ℝ := s.y * p.l

/-- The tuple `vdots = (-1., vdotn_v1, vdotn_v2, vdotn_h1, vdotn_h2)`:
the exit plane (index 0) carries the constant directional term `-1`. -/
def vdots (p : Params) (s : Neutron) : Fin 5 → ℝ
  | 0 => -1
  | 1 => vdotn_v1 p s
  | 2 => vdotn_v2 p s
  | 3 => vdotn_h1 p s
  | 4 => vdotn_h2 p s

/-- Numerators of the five candidate intersection times. -/
def timesNum (p : Params) (s : Neutron) : Fin 5 → ℝ
  | 0 => p.l - s.z
  | 1 => cv1 p s - cv2 p s
  | 2 => cv1 p s + cv2 p s
  | 3 => ch1 p s - ch2 p s
  | 4 => ch1 p s + ch2 p s

/-- Denominators of the five candidate intersection times: `vz` for the
exit plane and the directional terms for the four mirrors.  The source
divides by them unconditionally when building its `times` tuple. -/
def iterDenominators (p : Params) (s : Neutron) : Fin 5 → ℝ
  | 0 => s.vz
  | 1 => vdotn_v1 p s
  | 2 => vdotn_v2 p s
  | 3 => vdotn_h1 p s
  | 4 => vdotn_h2 p s

/-- The tuple `times` of the five candidate intersection times, each one a
quotient computed unconditionally (under IEEE semantics a zero denominator
yields a non-finite float; in this real model the quotient is the total
real division). -/
noncomputable def times (p : Params) (s : Neutron) (i : Fin 5) : ℝ :=
  timesNum p s i / iterDenominators p s i

/-- One pass of the selection loop body
`if vdots[i] < 0 and best_time > times[i]`, on an accumulator holding the
best time so far (`none` models the initial `best_time = inf`, for which
the comparison `best_time > times[i]` always holds on finite floats) and
the current `side`. -/
noncomputable def selStep (vd tm : Fin 5 → ℝ) (acc : Option ℝ × Fin 5) (i : Fin 5) :
    Option ℝ × Fin 5 :=
  match acc with
  | (none, side) => if vd i < 0 then (some (tm i), i) else (none, side)
  | (some b, side) => if vd i < 0 ∧ tm i < b then (some (tm i), i) else (some b, side)

/-- The source's `for i in range(0, 5)` selection loop, unrolled.  The
initial accumulator is `(inf, side)`; the initial `side` value is never
read because index 0 always has `vdots[0] = -1 < 0`. -/
noncomputable def selectLoop (vd tm : Fin 5 → ℝ) : Option ℝ × Fin 5 :=
  selStep vd tm (selStep vd tm (selStep vd tm (selStep vd tm
    (selStep vd tm (none, 0) 0) 1) 2) 3) 4

/-- The `side` selected by one bounce iteration. -/
noncomputable def chooseSide (p : Params) (s : Neutron) : Fin 5 :=
  (selectLoop (vdots p s) (times p s)).2

/-- The directional term used by the reflection branch for a given side:
`(vdotn_v1, vdotn_v2)[side - 1]` or `(vdotn_h1, vdotn_h2)[side - 3]`. -/
def vdotAt (p : Params) (s : Neutron) (side : Fin 5) : ℝ :=
  if side.val < 3 then
    (if side.val = 1 then vdotn_v1 p s else vdotn_v2 p s)
  else
    (if side.val = 3 then vdotn_h1 p s else vdotn_h2 p s)

/-- Squared normal length of the mirror hit: `l*l + ww*ww` for the
vertical mirrors and `l*l + hh*hh` for the horizontal ones. -/
def nlen2At (p : Params) (side : Fin 5) : ℝ :=
  if side.val < 3 then p.l * p.l + p.ww * p.ww else p.l * p.l + p.hh * p.hh

/-- Momentum transfer of the reflection, `q = V2K*(-2)*vdot/sqrt(nlen2)`. -/
noncomputable def qAt (p : Params) (s : Neutron) (side : Fin 5) : ℝ :=
  V2K * (-2) * vdotAt p s side / Real.sqrt (nlen2At p side)

/-- The reflection coefficient `d = 2*vdot/nlen2`. -/
noncomputable def dAt (p : Params) (s : Neutron) (side : Fin 5) : ℝ :=
  2 * vdotAt p s side / nlen2At p side

/-- New `vx` after reflection: `vx - (d*l, -d*l)[side - 1]` on the vertical
branch, unchanged on the horizontal branch. -/
noncomputable def reflVxAt (p : Params) (s : Neutron) (side : Fin 5) : ℝ :=
  if side.val < 3 then
    s.vx - (if side.val = 1 then dAt p s side * p.l else -(dAt p s side * p.l))
  else s.vx

/-- New `vy` after reflection: unchanged on the vertical branch,
`vy - (d*l, -d*l)[side - 3]` on the horizontal branch. -/
noncomputable def reflVyAt (p : Params) (s : Neutron) (side : Fin 5) : ℝ :=
  if side.val < 3 then s.vy
  else s.vy - (if side.val = 3 then dAt p s side * p.l else -(dAt p s side * p.l))

/-- New `vz` after reflection: `vz - d*ww` or `vz - d*hh`. -/
noncomputable def reflVzAt (p : Params) (s : Neutron) (side : Fin 5) : ℝ :=
  s.vz - dAt p s side * (if side.val < 3 then p.ww else p.hh)

/-- One full bounce-loop body on the path where the selected side is a
mirror: advance position and time by `t1 = best_time` (which equals the
selected candidate's entry in `times`), reflect the velocity, and multiply
the probability by the reflectivity at the reflection's momentum
transfer. -/
noncomputable def bounceBody (p : Params) (s : Neutron) : Neutron :=
  let side := chooseSide p s
  let t1 := times p s side
  { x := s.x + s.vx * t1
    y := s.y + s.vy * t1
    z := s.z + s.vz * t1
    t := s.t + t1
    vx := reflVxAt p s side
    vy := reflVyAt p s side
    vz := reflVzAt p s side
    prob := s.prob * calc_reflectivity (qAt p s side) p.R0 p.Qc p.alpha p.m p.W }

/-- The `for nb in range(max_bounces)` loop with its two breaks: on
`side == 0` the loop stops with the state unchanged (the source breaks
before the position update), and after a bounce it stops when
`prob <= 0`. -/
noncomputable def bounceLoop (p : Params) : ℕ → Neutron → Neutron
  | 0, s => s
  | n + 1, s =>
    if chooseSide p s = 0 then s
    else if (bounceBody p s).prob ≤ 0 then bounceBody p s
    else bounceLoop p n (bounceBody p s)

/-- One bounce-loop iteration viewed as a plain function: the identity
once the exit plane is selected, the bounce body otherwise. -/
noncomputable def loopIter (p : Params) (s : Neutron) : Neutron :=
  if chooseSide p s = 0 then s else bounceBody p s

/-- Entry projection: straight-line flight to the plane `z = 0` using
`dt = -z/vz`. -/
noncomputable def entryState (s : Neutron) : Neutron :=
  let dt := -s.z / s.vz
  { s with x := s.x + s.vx * dt, y := s.y + s.vy * dt, z := 0, t := s.t + dt }

/-- Single-particle transport, `propagate` in the source: project to the
entrance plane, zero the weight and return the otherwise-unmodified record
when the projected point misses the opening, and otherwise run the bounce
loop for at most `max_bounces` iterations. -/
noncomputable def propagate (p : Params) (s : Neutron) : Neutron :=
  let s1 := entryState s
  if s1.x ≤ -p.hw1 ∨ p.hw1 ≤ s1.x ∨ s1.y ≤ -p.hh1 ∨ p.hh1 ≤ s1.y then
    { s with prob := 0 }
  else
    bounceLoop p max_bounces s1

/-- The guarded kernel body `if x < len(neutrons): propagate(...)` for one
thread index. -/
noncomputable def process_kernel (p : Params) (neutrons : List Neutron) (x : ℕ) :
    List Neutron :=
  if h : x < neutrons.length then
    neutrons.set x (propagate p (neutrons.get ⟨x, h⟩))
  else neutrons

/-- Threads per block, 512 in the source. -/
def threads_per_block : ℕ := 512

/-- Number of launched blocks, `ceil(neutron_count / threads_per_block)`
(computed exactly on the natural numbers). -/
def number_of_blocks (neutron_count : ℕ) : ℕ :=
  (neutron_count + threads_per_block - 1) / threads_per_block

/-- Batch dispatch, `call_process` in the source: run the guarded kernel
body for every thread index in the launched grid. -/
noncomputable def call_process (p : Params) (neutrons : List Neutron) : List Neutron :=
  (List.range (number_of_blocks neutrons.length * threads_per_block)).foldl
    (process_kernel p) neutrons

/-- Dot product on coordinate triples, used to state the spec's reflection
law. -/
def dot3 (a b : ℝ × ℝ × ℝ) : ℝ := a.1 * b.1 + a.2.1 * b.2.1 + a.2.2 * b.2.2

/-- Inward normal (unnormalised) of each mirror plane as described by the
spec: `(±l, 0, ww)` for the vertical mirrors and `(0, ±l, hh)` for the
horizontal ones.  Index 0 (the exit plane) is unused. -/
def normalOf (p : Params) (side : Fin 5) : ℝ × ℝ × ℝ :=
  if side.val < 3 then
    (if side.val = 1 then (p.l, 0, p.ww) else (-p.l, 0, p.ww))
  else
    (if side.val = 3 then (0, p.l, p.hh) else (0, -p.l, p.hh))

/-- Specular reflection exactly as worded by the spec and claim C4:
`v - 2*(v.n/|n|^2)*n`. -/
noncomputable def specularReflect (n v : ℝ × ℝ × ℝ) : ℝ × ℝ × ℝ :=
  (v.1 - 2 * (dot3 v n / dot3 n n) * n.1,
   v.2.1 - 2 * (dot3 v n / dot3 n n) * n.2.1,
   v.2.2 - 2 * (dot3 v n / dot3 n n) * n.2.2)

/-- Velocity triple of a neutron record. -/
def velOf (s : Neutron) : ℝ × ℝ × ℝ := (s.vx, s.vy, s.vz)

/-- Invariant of the selection loop after the first `n` candidate indices
have been processed: either no candidate so far had a negative directional
term (and the best time is still `inf`), or the accumulator holds the
earliest such candidate's time, with ties resolved towards the smallest
index. -/
def SelInv (vd tm : Fin 5 → ℝ) (n : ℕ) : Option ℝ × Fin 5 → Prop
  | (none, _) => ∀ i : Fin 5, i.val < n → ¬ vd i < 0
  | (some b, side) =>
      vd side < 0 ∧ b = tm side ∧ side.val < n ∧
        ∀ i : Fin 5, i.val < n → vd i < 0 →
          b < tm i ∨ (b = tm i ∧ side ≤ i)

/-- A straight (non-tapered) guide: `ww = hh = 0`, unit half-apertures,
length 1, with benign material parameters `R0 = 1, Qc = 1, alpha = 0,
m = 0, W = 1`. -/
def pC1 : Params := ⟨0, 0, 1, 1, 1, 1, 1, 0, 0, 1⟩

/-- An on-axis neutron at the entrance plane: `vx = vy = 0`, `vz = 1`,
weight 1. -/
def sC1 : Neutron := ⟨0, 0, 0, 0, 0, 1, 0, 1⟩

/-- The same straight guide with an unvalidated baseline reflectivity
`R0 = 2` (and `Qc = 1, alpha = 0, m = 0, W = 1`). -/
def pC5 : Params := ⟨0, 0, 1, 1, 1, 2, 1, 0, 0, 1⟩

/-- A neutron at the entrance centre aimed at the right vertical mirror:
velocity `(1, 0, 1/2)`, weight 1. -/
noncomputable def sC5 : Neutron := ⟨0, 0, 0, 1, 0, 1/2, 0, 1⟩

/-- A neutron at the entrance centre moving backwards, `vz = -1`, while
also heading towards the right vertical mirror with `vx = 1`. -/
def sC3 : Neutron := ⟨0, 0, 0, 1, 0, -1, 0, 1⟩

/-- A neutron aimed entirely outside the entrance opening (`x = 5` with
half-aperture 1). -/
def sC7 : Neutron := ⟨5, 0, 0, 0, 0, 1, 0, 1⟩

lemma selStep_inv (vd tm : Fin 5 → ℝ) (n : ℕ) (acc : Option ℝ × Fin 5) (i : Fin 5)
    (hi : i.val = n) (h : SelInv vd tm n acc) :
    SelInv vd tm (n + 1) (selStep vd tm acc i) := by
  obtain ⟨best, side⟩ := acc
  cases best with
  | none =>
    simp only [SelInv] at h
    by_cases hv : vd i < 0
    · simp only [selStep, if_pos hv, SelInv]
      refine ⟨hv, by trivial, by omega, ?_⟩
      intro j hj hvj
      by_cases hjn : j.val < n
      · exact absurd hvj (h j hjn)
      · have hji : j = i := Fin.ext (by omega)
        subst hji
        exact Or.inr ⟨rfl, le_refl _⟩
    · simp only [selStep, if_neg hv, SelInv]
      intro j hj
      by_cases hjn : j.val < n
      · exact h j hjn
      · have hji : j = i := Fin.ext (by omega)
        subst hji; exact hv
  | some b =>
    simp only [SelInv] at h
    obtain ⟨hbneg, hbeq, hblt, hmin⟩ := h
    by_cases hv : vd i < 0 ∧ tm i < b
    · simp only [selStep, if_pos hv, SelInv]
      refine ⟨hv.1, by trivial, by omega, ?_⟩
      intro j hj hvj
      by_cases hjn : j.val < n
      · rcases hmin j hjn hvj with h1 | h2
        · exact Or.inl (lt_trans hv.2 h1)
        · exact Or.inl (h2.1 ▸ hv.2)
      · have hji : j = i := Fin.ext (by omega)
        subst hji
        exact Or.inr ⟨rfl, le_refl _⟩
    · simp only [selStep, if_neg hv, SelInv]
      refine ⟨hbneg, hbeq, by omega, ?_⟩
      intro j hj hvj
      by_cases hjn : j.val < n
      · exact hmin j hjn hvj
      · have hji : j = i := Fin.ext (by omega)
        subst hji
        have hnlt : ¬ tm j < b := fun hlt => hv ⟨hvj, hlt⟩
        rcases lt_or_eq_of_le (le_of_not_lt hnlt) with h1 | h1
        · exact Or.inl h1
        · exact Or.inr ⟨h1, Fin.le_def.mpr (by omega)⟩

lemma selectLoop_inv (vd tm : Fin 5 → ℝ) : SelInv vd tm 5 (selectLoop vd tm) := by
  have h0 : SelInv vd tm 0 ((none, 0) : Option ℝ × Fin 5) := by
    simp only [SelInv]
    intro i hi
    omega
  have h1 := selStep_inv vd tm 0 _ 0 rfl h0
  have h2 := selStep_inv vd tm 1 _ 1 rfl h1
  have h3 := selStep_inv vd tm 2 _ 2 rfl h2
  have h4 := selStep_inv vd tm 3 _ 3 rfl h3
  have h5 := selStep_inv vd tm 4 _ 4 rfl h4
  exact h5

lemma chooseSide_spec (p : Params) (s : Neutron) :
    vdots p s (chooseSide p s) < 0 ∧
      ∀ i : Fin 5, vdots p s i < 0 →
        times p s (chooseSide p s) < times p s i ∨
          (times p s (chooseSide p s) = times p s i ∧ chooseSide p s ≤ i) := by
  have h := selectLoop_inv (vdots p s) (times p s)
  have h00 : vdots p s 0 < 0 := by
    simp only [vdots]
    norm_num
  rcases hSL : selectLoop (vdots p s) (times p s) with ⟨best, side⟩
  rw [hSL] at h
  have hside : chooseSide p s = side := by
    simp only [chooseSide, hSL]
  cases best with
  | none =>
    simp only [SelInv] at h
    exact absurd h00 (h 0 (by omega))
  | some b =>
    simp only [SelInv] at h
    obtain ⟨hbneg, hbeq, _, hmin⟩ := h
    rw [hside]
    refine ⟨hbneg, ?_⟩
    intro i hvi
    have := hmin i (i.isLt) hvi
    rw [hbeq] at this
    exact this

lemma chooseSide_neg (p : Params) (s : Neutron) : vdots p s (chooseSide p s) < 0 :=
  (chooseSide_spec p s).1

lemma chooseSide_ne_of_vdot_eq_zero (p : Params) (s : Neutron) (i : Fin 5)
    (h : vdots p s i = 0) : chooseSide p s ≠ i := by
  intro hc
  have := chooseSide_neg p s
  rw [hc, h] at this
  exact lt_irrefl 0 this

lemma tanh_lt_one (x : ℝ) : Real.tanh x < 1 := by
  rw [Real.tanh_eq_sinh_div_cosh, div_lt_one (Real.cosh_pos x)]
  exact Real.sinh_lt_cosh x

lemma neg_one_lt_tanh (x : ℝ) : -1 < Real.tanh x := by
  rw [Real.tanh_eq_sinh_div_cosh, lt_div_iff₀ (Real.cosh_pos x)]
  nlinarith [Real.cosh_add_sinh x, Real.exp_pos x]

lemma calc_reflectivity_le_one (Q R0 Qc alpha m W : ℝ) (h0 : 0 ≤ R0) (h1 : R0 ≤ 1)
    (ha : 0 ≤ alpha) : calc_reflectivity Q R0 Qc alpha m W ≤ 1 := by
  unfold calc_reflectivity
  split_ifs with hQ
  · have ht1 : Real.tanh ((Q - m * Qc) / W) < 1 := tanh_lt_one _
    have ht2 : -1 < Real.tanh ((Q - m * Qc) / W) := neg_one_lt_tanh _
    have hB : 1 - alpha * (Q - Qc) ≤ 1 := by nlinarith
    by_cases hBs : 0 ≤ 1 - alpha * (Q - Qc)
    · have hfac0 : 0 ≤ (1 - Real.tanh ((Q - m * Qc) / W)) * (1 - alpha * (Q - Qc)) / 2 := by
        apply div_nonneg _ (by norm_num)
        exact mul_nonneg (by linarith) hBs
      have hfac : (1 - Real.tanh ((Q - m * Qc) / W)) * (1 - alpha * (Q - Qc)) / 2 ≤ 1 := by
        nlinarith
      exact mul_le_one₀ h1 hfac0 hfac
    · push_neg at hBs
      have hfac : (1 - Real.tanh ((Q - m * Qc) / W)) * (1 - alpha * (Q - Qc)) / 2 ≤ 0 := by
        nlinarith
      nlinarith
  · exact h1

lemma bounceBody_prob (p : Params) (s : Neutron) :
    (bounceBody p s).prob =
      s.prob * calc_reflectivity (qAt p s (chooseSide p s)) p.R0 p.Qc p.alpha p.m p.W :=
  rfl

lemma bounceLoop_succ (p : Params) (n : ℕ) (s : Neutron) :
    bounceLoop p (n + 1) s =
      if chooseSide p s = 0 then s
      else if (bounceBody p s).prob ≤ 0 then bounceBody p s
      else bounceLoop p n (bounceBody p s) :=
  rfl

lemma bounceLoop_prob_le (p : Params) (h0 : 0 ≤ p.R0) (h1 : p.R0 ≤ 1) (ha : 0 ≤ p.alpha) :
    ∀ (n : ℕ) (s : Neutron), 0 ≤ s.prob → (bounceLoop p n s).prob ≤ s.prob := by
  intro n
  induction n with
  | zero => intro s _; exact le_refl _
  | succ n ih =>
    intro s hp
    rw [bounceLoop_succ]
    split_ifs with hside hprob
    · exact le_refl _
    · exact le_trans hprob hp
    · have hR : calc_reflectivity (qAt p s (chooseSide p s)) p.R0 p.Qc p.alpha p.m p.W ≤ 1 :=
        calc_reflectivity_le_one _ _ _ _ _ _ h0 h1 ha
      have hb : (bounceBody p s).prob ≤ s.prob := by
        rw [bounceBody_prob]
        exact mul_le_of_le_one_right hp hR
      have hb0 : 0 ≤ (bounceBody p s).prob := le_of_lt (not_le.mp hprob)
      exact le_trans (ih (bounceBody p s) hb0) hb

lemma vdots_eq_vdotAt (p : Params) (s : Neutron) (i : Fin 5) (h : i ≠ 0) :
    vdots p s i = vdotAt p s i := by
  rcases i with ⟨v, hv⟩
  interval_cases v
  · exact absurd rfl h
  · rfl
  · rfl
  · rfl
  · rfl

lemma vdots_eq_iterDenominators (p : Params) (s : Neutron) (i : Fin 5) (h : i ≠ 0) :
    vdots p s i = iterDenominators p s i := by
  rcases i with ⟨v, hv⟩
  interval_cases v
  · exact absurd rfl h
  · rfl
  · rfl
  · rfl
  · rfl

/-- C2: `calc_reflectivity` returns exactly `R0` when `Q ≤ Qc`, and exactly
`R0 * (1 - tanh((Q - m*Qc)/W)) * (1 - alpha*(Q - Qc)) / 2` when `Q > Qc`,
for all real arguments. -/
theorem C2_reflectivity_formula (Q R0 Qc alpha m W : ℝ) :
    (Q ≤ Qc → calc_reflectivity Q R0 Qc alpha m W = R0) ∧
    (Qc < Q → calc_reflectivity Q R0 Qc alpha m W =
      R0 * (1 - Real.tanh ((Q - m * Qc) / W)) * (1 - alpha * (Q - Qc)) / 2) := by
  constructor
  · intro h
    rw [calc_reflectivity, if_neg (not_lt.mpr h)]
  · intro h
    rw [calc_reflectivity, if_pos h]
    ring

/-- Witness for C2 at the concrete arguments `Q = 0` (below the critical
edge) and `Q = 2` (above it), with `R0 = Qc = alpha = m = W = 1`. -/
theorem C2_reflectivity_formula_witness :
    (0 : ℝ) ≤ 1 ∧ calc_reflectivity 0 1 1 1 1 1 = 1 ∧
    (1 : ℝ) < 2 ∧ calc_reflectivity 2 1 1 1 1 1 =
      1 * (1 - Real.tanh ((2 - 1 * 1) / 1)) * (1 - 1 * (2 - 1)) / 2 :=
  ⟨by norm_num, (C2_reflectivity_formula 0 1 1 1 1 1).1 (by norm_num), by norm_num,
   (C2_reflectivity_formula 2 1 1 1 1 1).2 (by norm_num)⟩

/-- C9: batch dispatch on an empty batch launches `ceil(0/512) = 0` blocks,
so the guarded kernel body runs for no thread index and the batch is
returned unchanged; in this model no error can be raised. -/
theorem C9_empty_batch_noop (p : Params) : call_process p [] = [] := rfl

/-- C8: the bounce loop is capped at `max_bounces = 100000` iterations, so
single-particle transport always terminates; with zero remaining fuel the
state is returned exactly as last computed (no separate status flag
exists in the record), `propagate` is exactly the entry check followed by
the capped loop, and a run of the loop with fuel `n` is some `k ≤ n`
iterations of the per-iteration body. -/
theorem C8_bounce_cap_and_termination :
    max_bounces = 100000 ∧
    (∀ (p : Params) (s : Neutron), bounceLoop p 0 s = s) ∧
    (∀ (p : Params) (s : Neutron),
      propagate p s =
        if (entryState s).x ≤ -p.hw1 ∨ p.hw1 ≤ (entryState s).x ∨
            (entryState s).y ≤ -p.hh1 ∨ p.hh1 ≤ (entryState s).y then
          { s with prob := 0 }
        else bounceLoop p max_bounces (entryState s)) ∧
    (∀ (p : Params) (n : ℕ) (s : Neutron),
      ∃ k, k ≤ n ∧ bounceLoop p n s = (loopIter p)^[k] s) := by
  refine ⟨rfl, fun p s => rfl, fun p s => rfl, ?_⟩
  intro p n
  induction n with
  | zero => exact fun s => ⟨0, le_refl 0, rfl⟩
  | succ n ih =>
    intro s
    rw [bounceLoop_succ]
    by_cases h1 : chooseSide p s = 0
    · exact ⟨0, by omega, by rw [if_pos h1, Function.iterate_zero_apply]⟩
    · rw [if_neg h1]
      by_cases h2 : (bounceBody p s).prob ≤ 0
      · refine ⟨1, by omega, ?_⟩
        rw [if_pos h2, Function.iterate_one, loopIter, if_neg h1]
      · obtain ⟨k, hk, hkk⟩ := ih (bounceBody p s)
        refine ⟨k + 1, by omega, ?_⟩
        rw [if_neg h2, hkk, Function.iterate_succ_apply,
          show loopIter p s = bounceBody p s from by rw [loopIter, if_neg h1]]

/-- C7: a particle whose straight-line projection onto the entrance plane
falls outside the open entrance rectangle gets `probability = 0` and the
transport returns at once: the record is returned with its original
position, velocity and time (in particular it is never advanced past the
entry projection).  The hypothesis `vz ≠ 0` keeps the projection itself
well defined. -/
theorem C7_escape_outside_entrance (p : Params) (s : Neutron) (hvz : s.vz ≠ 0)
    (h : ¬(-p.hw1 < (entryState s).x ∧ (entryState s).x < p.hw1 ∧
          -p.hh1 < (entryState s).y ∧ (entryState s).y < p.hh1)) :
    propagate p s = { s with prob := 0 } := by
  have hcode : (entryState s).x ≤ -p.hw1 ∨ p.hw1 ≤ (entryState s).x ∨
      (entryState s).y ≤ -p.hh1 ∨ p.hh1 ≤ (entryState s).y := by
    by_contra hc
    push_neg at hc
    obtain ⟨h1, h2, h3, h4⟩ := hc
    exact h ⟨h1, h2, h3, h4⟩
  simp only [propagate]
  rw [if_pos hcode]

/-- Witness for C7: a particle at `x = 5` aimed parallel to the axis of a
guide with half-aperture 1 is escaped with zero weight and an otherwise
unchanged record. -/
theorem C7_escape_outside_entrance_witness :
    sC7.vz ≠ 0 ∧
    ¬(-pC1.hw1 < (entryState sC7).x ∧ (entryState sC7).x < pC1.hw1 ∧
        -pC1.hh1 < (entryState sC7).y ∧ (entryState sC7).y < pC1.hh1) ∧
    propagate pC1 sC7 = { sC7 with prob := 0 } :=
  ⟨by norm_num [sC7], by norm_num [entryState, pC1, sC7],
   C7_escape_outside_entrance pC1 sC7 (by norm_num [sC7])
     (by norm_num [entryState, pC1, sC7])⟩

/-- C3 counterexample: at the reachable loop state `sC3` (entrance centre,
`vx = 1`, `vz = -1`, so the entry projection is the identity) the code
selects the exit plane (side 0) although its intersection time is negative
(in the past), while the right vertical mirror (side 2) has a negative
directional term and a future intersection time: the chosen surface is not
the one with the earliest FUTURE intersection time. -/
theorem C3_counterexample_past_intersection_selected :
    chooseSide pC1 sC3 = 0 ∧ times pC1 sC3 0 < 0 ∧
    vdots pC1 sC3 2 < 0 ∧ 0 ≤ times pC1 sC3 2 := by
  refine ⟨?_, ?_, ?_, ?_⟩ <;>
    norm_num [chooseSide, selectLoop, selStep, vdots, times, timesNum, iterDenominators,
      vdotn_v1, vdotn_v2, vdotn_h1, vdotn_h2, cv1, cv2, ch1, ch2, pC1, sC3]

/-- C3 amended: at every bounce iteration the chosen surface is the one
with the earliest intersection time (future or past, the source never
checks the sign) among the five candidates whose directional term is
negative, the exit plane carrying the constant term `-1`; ties are broken
towards the earliest listed index, the exit plane being checked first. -/
theorem C3_amended_earliest_among_negative_terms (p : Params) (s : Neutron) :
    vdots p s 0 = -1 ∧
    vdots p s (chooseSide p s) < 0 ∧
    ∀ i : Fin 5, vdots p s i < 0 →
      times p s (chooseSide p s) < times p s i ∨
        (times p s (chooseSide p s) = times p s i ∧ chooseSide p s ≤ i) :=
  ⟨rfl, (chooseSide_spec p s).1, (chooseSide_spec p s).2⟩

/-- Witness for the amended C3 at the concrete state `sC3`, instantiating
the minimality property at the candidate mirror of index 2. -/
theorem C3_amended_earliest_witness :
    vdots pC1 sC3 2 < 0 ∧
    (times pC1 sC3 (chooseSide pC1 sC3) < times pC1 sC3 2 ∨
      (times pC1 sC3 (chooseSide pC1 sC3) = times pC1 sC3 2 ∧ chooseSide pC1 sC3 ≤ 2)) :=
  ⟨by norm_num [vdots, vdotn_v2, pC1, sC3],
   (C3_amended_earliest_among_negative_terms pC1 sC3).2.2 2
     (by norm_num [vdots, vdotn_v2, pC1, sC3])⟩

/-- C4: at every reflection (any selected mirror side), the updated
velocity equals `v - 2*(v.n/|n|^2)*n` for the mirror's inward normal `n`,
and the momentum transfer passed to the reflectivity model equals
`2 * V2K * |v.n| / |n|`. -/
theorem C4_reflection_and_momentum_transfer (p : Params) (s : Neutron)
    (h : chooseSide p s ≠ 0) :
    velOf (bounceBody p s) =
      specularReflect (normalOf p (chooseSide p s)) (velOf s) ∧
    qAt p s (chooseSide p s) =
      2 * V2K * |dot3 (velOf s) (normalOf p (chooseSide p s))| /
        Real.sqrt (dot3 (normalOf p (chooseSide p s)) (normalOf p (chooseSide p s))) := by
  have hvd : vdotAt p s (chooseSide p s) = dot3 (velOf s) (normalOf p (chooseSide p s)) := by
    unfold vdotAt normalOf dot3 velOf vdotn_v1 vdotn_v2 vdotn_h1 vdotn_h2
    split_ifs <;> dsimp only <;> ring
  have hnn : nlen2At p (chooseSide p s) =
      dot3 (normalOf p (chooseSide p s)) (normalOf p (chooseSide p s)) := by
    unfold nlen2At normalOf dot3
    split_ifs <;> dsimp only <;> ring
  constructor
  · show (reflVxAt p s (chooseSide p s), reflVyAt p s (chooseSide p s),
      reflVzAt p s (chooseSide p s)) = _
    rw [specularReflect, ← hvd, ← hnn]
    unfold reflVxAt reflVyAt reflVzAt dAt normalOf velOf
    split_ifs <;> dsimp only <;> simp only [Prod.mk.injEq] <;>
      refine ⟨by ring, by ring, by ring⟩
  · have hneg : vdotAt p s (chooseSide p s) < 0 := by
      have hc := chooseSide_neg p s
      rwa [vdots_eq_vdotAt p s _ h] at hc
    rw [qAt, ← hvd, ← hnn, abs_of_neg hneg]
    ring

/-- Witness for C4 at the concrete bounce of `sC5` off the right vertical
mirror of the straight guide. -/
theorem C4_reflection_witness :
    chooseSide pC5 sC5 ≠ 0 ∧
    velOf (bounceBody pC5 sC5) =
      specularReflect (normalOf pC5 (chooseSide pC5 sC5)) (velOf sC5) ∧
    qAt pC5 sC5 (chooseSide pC5 sC5) =
      2 * V2K * |dot3 (velOf sC5) (normalOf pC5 (chooseSide pC5 sC5))| /
        Real.sqrt
          (dot3 (normalOf pC5 (chooseSide pC5 sC5)) (normalOf pC5 (chooseSide pC5 sC5))) := by
  have h : chooseSide pC5 sC5 ≠ 0 := by
    rw [show chooseSide pC5 sC5 = 2 from by
      norm_num [chooseSide, selectLoop, selStep, vdots, times, timesNum, iterDenominators,
        vdotn_v1, vdotn_v2, vdotn_h1, vdotn_h2, cv1, cv2, ch1, ch2, pC5, sC5]]
    decide
  exact ⟨h, (C4_reflection_and_momentum_transfer pC5 sC5 h).1,
    (C4_reflection_and_momentum_transfer pC5 sC5 h).2⟩

/-- C6 counterexample: for the perfectly ordinary on-axis particle `sC1`
in the straight guide (which passes the entrance check, so the bounce loop
runs), the left vertical candidate's directional term -- the denominator
of its intersection time -- is exactly 0, and its intersection time is
nonetheless computed as the quotient by that zero denominator: the source
builds all five quotients unconditionally, so transport does divide by
zero (IEEE non-faulting division); nothing is "skipped" at computation
time. -/
theorem C6_counterexample_zero_division_performed :
    ¬((entryState sC1).x ≤ -pC1.hw1 ∨ pC1.hw1 ≤ (entryState sC1).x ∨
        (entryState sC1).y ≤ -pC1.hh1 ∨ pC1.hh1 ≤ (entryState sC1).y) ∧
    iterDenominators pC1 sC1 1 = 0 ∧
    times pC1 sC1 1 = timesNum pC1 sC1 1 / 0 := by
  refine ⟨by norm_num [entryState, pC1, sC1], ?_, ?_⟩
  · norm_num [iterDenominators, vdotn_v1, pC1, sC1]
  · rw [times, show iterDenominators pC1 sC1 1 = 0 from by
      norm_num [iterDenominators, vdotn_v1, pC1, sC1]]

/-- C6 amended: a mirror candidate whose intersection-time denominator
(its directional term) is exactly 0 is never the selected surface -- the
selection test `vdots[i] < 0` excludes it -- so its division-by-zero time
is never used, even though the division itself is performed. -/
theorem C6_amended_zero_denominator_never_selected (p : Params) (s : Neutron) (i : Fin 5)
    (hi : i ≠ 0) (h : iterDenominators p s i = 0) : chooseSide p s ≠ i :=
  chooseSide_ne_of_vdot_eq_zero p s i (by rw [vdots_eq_iterDenominators p s i hi]; exact h)

/-- Witness for the amended C6: the on-axis particle's left vertical
candidate has a zero denominator and is not selected. -/
theorem C6_amended_witness :
    (1 : Fin 5) ≠ 0 ∧ iterDenominators pC1 sC1 1 = 0 ∧ chooseSide pC1 sC1 ≠ 1 :=
  ⟨by decide, by norm_num [iterDenominators, vdotn_v1, pC1, sC1],
   C6_amended_zero_denominator_never_selected pC1 sC1 1 (by decide)
     (by norm_num [iterDenominators, vdotn_v1, pC1, sC1])⟩

/-- C10: every bounce-loop body application preserves the particle's
speed: the reflected velocity has the same squared norm as the incoming
one (for a guide of nonzero length, so the mirror normals are nonzero). -/
theorem C10_bounce_preserves_speed (p : Params) (s : Neutron) (hl : p.l ≠ 0) :
    (bounceBody p s).vx ^ 2 + (bounceBody p s).vy ^ 2 + (bounceBody p s).vz ^ 2 =
      s.vx ^ 2 + s.vy ^ 2 + s.vz ^ 2 := by
  have h0 : 0 < p.l * p.l := mul_self_pos.mpr hl
  have hN1 : p.l * p.l + p.ww * p.ww ≠ 0 := by nlinarith [mul_self_nonneg p.ww]
  have hN2 : p.l * p.l + p.hh * p.hh ≠ 0 := by nlinarith [mul_self_nonneg p.hh]
  show (reflVxAt p s (chooseSide p s)) ^ 2 + (reflVyAt p s (chooseSide p s)) ^ 2 +
    (reflVzAt p s (chooseSide p s)) ^ 2 = _
  unfold reflVxAt reflVyAt reflVzAt dAt vdotAt nlen2At vdotn_v1 vdotn_v2 vdotn_h1 vdotn_h2
  split_ifs
  · field_simp
    ring
  · field_simp
    ring
  · field_simp
    ring
  · field_simp
    ring

/-- Witness for C10 at the concrete bounce of `sC5` off the right vertical
mirror. -/
theorem C10_bounce_preserves_speed_witness :
    pC5.l ≠ 0 ∧
    (bounceBody pC5 sC5).vx ^ 2 + (bounceBody pC5 sC5).vy ^ 2 + (bounceBody pC5 sC5).vz ^ 2 =
      sC5.vx ^ 2 + sC5.vy ^ 2 + sC5.vz ^ 2 :=
  ⟨by norm_num [pC5], C10_bounce_preserves_speed pC5 sC5 (by norm_num [pC5])⟩

/-- C1: evaluation of the code at the on-axis particle `sC1` (with
`vx = vy = 0`, `vz = 1`) in the straight guide `pC1` of length 1.  The
bounce loop selects the exit plane on its first iteration, but the source
breaks out of the loop BEFORE the position/time update, so the returned
record is bit-for-bit the input: `z = 0` (not the guide length 1) and
`t = 0` (not `length/vz = 1`); only the probability conjunct of the claim
holds.  This contradicts the component's own documentation ("at the
moment of exit") and the spec. -/
theorem C1_exit_selection_leaves_state_at_entrance :
    propagate pC1 sC1 = sC1 ∧ pC1.l = 1 ∧ sC1.z = 0 ∧ sC1.t = 0 ∧ sC1.vz = 1 ∧
      sC1.prob = 1 := by
  refine ⟨?_, rfl, rfl, rfl, rfl, rfl⟩
  have hE : entryState sC1 = sC1 := by
    simp [entryState, sC1]
  have hcs : chooseSide pC1 sC1 = 0 := by
    norm_num [chooseSide, selectLoop, selStep, vdots, times, timesNum, iterDenominators,
      vdotn_v1, vdotn_v2, vdotn_h1, vdotn_h2, cv1, cv2, ch1, ch2, pC1, sC1]
  have hloop : bounceLoop pC1 max_bounces sC1 = sC1 := by
    rw [show max_bounces = 99999 + 1 from rfl, bounceLoop_succ, if_pos hcs]
  simp only [propagate]
  rw [hE]
  split_ifs with h
  · exfalso
    revert h
    norm_num [pC1, sC1]
  · exact hloop

/-- C5 amended: probability never increases during transport provided the
material parameters are physically valid (`0 ≤ R0 ≤ 1` and `alpha ≥ 0`,
which the code never checks) and the incoming weight is nonnegative. -/
theorem C5_amended_probability_nonincreasing (p : Params) (s : Neutron)
    (h0 : 0 ≤ p.R0) (h1 : p.R0 ≤ 1) (ha : 0 ≤ p.alpha) (hp : 0 ≤ s.prob) :
    (propagate p s).prob ≤ s.prob := by
  simp only [propagate]
  split_ifs with h
  · simpa using hp
  · have he : (entryState s).prob = s.prob := rfl
    calc (bounceLoop p max_bounces (entryState s)).prob
        ≤ (entryState s).prob :=
          bounceLoop_prob_le p h0 h1 ha max_bounces (entryState s) (by rw [he]; exact hp)
      _ = s.prob := he

/-- Witness for the amended C5 at the on-axis particle of the straight
guide with valid material parameters. -/
theorem C5_amended_probability_nonincreasing_witness :
    0 ≤ pC1.R0 ∧ pC1.R0 ≤ 1 ∧ 0 ≤ pC1.alpha ∧ 0 ≤ sC1.prob ∧
      (propagate pC1 sC1).prob ≤ sC1.prob :=
  ⟨by norm_num [pC1], by norm_num [pC1], by norm_num [pC1], by norm_num [sC1],
   C5_amended_probability_nonincreasing pC1 sC1 (by norm_num [pC1]) (by norm_num [pC1])
     (by norm_num [pC1]) (by norm_num [sC1])⟩

/-- C5 counterexample: with the unvalidated parameter set `R0 = 2`
(`Qc = 1`, so the single bounce of `sC5` has `Q = 2*V2K < Qc` and
reflectivity exactly `R0`), the particle bounces once off the right
vertical mirror and exits with probability 2, strictly greater than its
initial probability 1: probability is NOT nonincreasing for every
parameter set. -/
theorem C5_counterexample_probability_increases :
    sC5.prob < (propagate pC5 sC5).prob := by
  have h2v : ((2 : Fin 5)).val = 2 := rfl
  have hE : entryState sC5 = sC5 := by
    simp [entryState, sC5]
  have hcs1 : chooseSide pC5 sC5 = 2 := by
    norm_num [chooseSide, selectLoop, selStep, vdots, times, timesNum, iterDenominators,
      vdotn_v1, vdotn_v2, vdotn_h1, vdotn_h2, cv1, cv2, ch1, ch2, pC5, sC5]
  have hq : ¬ qAt pC5 sC5 2 > pC5.Qc := by
    rw [qAt]
    norm_num [vdotAt, nlen2At, vdotn_v2, pC5, sC5, h2v, Real.sqrt_one, V2K]
  have hbody : bounceBody pC5 sC5 = ⟨1, 0, 1/2, -1, 0, 1/2, 1, 2⟩ := by
    simp only [bounceBody, hcs1]
    apply Neutron.ext
    · norm_num [times, timesNum, iterDenominators, vdotn_v2, cv1, cv2, pC5, sC5]
    · norm_num [times, timesNum, iterDenominators, vdotn_v2, cv1, cv2, pC5, sC5]
    · norm_num [times, timesNum, iterDenominators, vdotn_v2, cv1, cv2, pC5, sC5]
    · norm_num [reflVxAt, dAt, vdotAt, nlen2At, vdotn_v2, h2v, pC5, sC5]
    · norm_num [reflVyAt, dAt, vdotAt, nlen2At, vdotn_v2, h2v, pC5, sC5]
    · norm_num [reflVzAt, dAt, vdotAt, nlen2At, vdotn_v2, h2v, pC5, sC5]
    · norm_num [times, timesNum, iterDenominators, vdotn_v2, cv1, cv2, pC5, sC5]
    · rw [calc_reflectivity, if_neg hq]
      norm_num [pC5, sC5]
  have hcs2 : chooseSide pC5 (⟨1, 0, 1/2, -1, 0, 1/2, 1, 2⟩ : Neutron) = 0 := by
    norm_num [chooseSide, selectLoop, selStep, vdots, times, timesNum, iterDenominators,
      vdotn_v1, vdotn_v2, vdotn_h1, vdotn_h2, cv1, cv2, ch1, ch2, pC5]
  have hprop : propagate pC5 sC5 = bounceLoop pC5 max_bounces sC5 := by
    simp only [propagate]
    rw [hE]
    split_ifs with h
    · exfalso
      revert h
      norm_num [pC5, sC5]
    · rfl
  rw [hprop, show max_bounces = 99999 + 1 from rfl, bounceLoop_succ,
    if_neg (by rw [hcs1]; decide : ¬ chooseSide pC5 sC5 = 0), hbody,
    if_neg (by norm_num : ¬ ((⟨1, 0, 1/2, -1, 0, 1/2, 1, 2⟩ : Neutron)).prob ≤ 0),
    show (99999 : ℕ) = 99998 + 1 from rfl, bounceLoop_succ, if_pos hcs2]
  norm_num [sC5]

end GuideModel
